import Mathlib

/-! Contacts service: a shallow embedding of `contacts.js` and `app.js`.

The backend router (`contacts.js`) is embedded as pure functions from a store
state and a request to a response and a new store state.  The store is the
`contacts` table: a list of rows together with the auto-increment counter.
The four SQL statements the handlers issue are embedded as list operations.
The browser client (`app.js`) is embedded as functions on the state of the
form and of the page, with the outcome of every `fetch` passed in explicitly.

A column of a row holds the value that was bound to it, and two column values
are equal when the bound values are; how the driver and the engine encode a
bound value that is not a string is not part of the source and is not
modelled.

Functions on the store assume but do not require that the store is well
formed (primary key unique, every key below the auto-increment counter);
separate theorems show that every handler keeps a well-formed store well
formed.
-/

namespace Contacts

/-! ## Request body fields -/

mutual
/-- A JSON value as `express.json()` and `express.urlencoded({ extended: true })`
deliver it in `req.body`, or `undefined` for a member that is absent. A number
is given by the text `String(x)` of its value. -/
inductive JsVal where
  | undefined
  | null
  | bool (b : Bool)
  | num (text : String)
  | str (s : String)
  | arr (items : JsList)
  | obj (members : JsMembers)
  deriving DecidableEq
/-- The elements of an array. -/
inductive JsList where
  | nil
  | cons (head : JsVal) (tail : JsList)
  deriving DecidableEq
/-- The own properties of an object. -/
inductive JsMembers where
  | nil
  | cons (key : String) (value : JsVal) (rest : JsMembers)
  deriving DecidableEq
end

/-- JavaScript truthiness (`!x` is its negation): `undefined`, `null`, `false`,
the numbers 0 and NaN and the empty string are falsy, every other value,
arrays and objects included, is truthy. -/
def JsVal.truthy : JsVal → Bool
  | .undefined => false
  | .null => false
  | .bool b => b
  | .num text => text != "0" && text != "NaN"
  | .str s => s != ""
  | .arr _ => true
  | .obj _ => true

/-- Whether a value is `undefined` or `null`; `Array.prototype.join` writes
such an element as the empty string. -/
def JsVal.isNullish : JsVal → Bool
  | .undefined => true
  | .null => true
  | _ => false

/-- Whether an object has an own property of the given name. -/
def JsMembers.hasKey : JsMembers → String → Bool
  | .nil, _ => false
  | .cons key _ rest, k => key == k || rest.hasKey k

mutual
/-- JavaScript `String(x)`, the coercion `RegExp.prototype.test` applies to its
argument; `none` when the coercion throws a `TypeError`. An array is the
comma-separated join of its elements. An object of the body is
"[object Object]", unless it has an own property `toString`: a JSON value is
not callable and the inherited `valueOf` returns the object, so the coercion
throws. -/
def JsVal.toJsString : JsVal → Option String
  | .undefined => some "undefined"
  | .null => some "null"
  | .bool b => some (if b then "true" else "false")
  | .num text => some text
  | .str s => some s
  | .arr items => (JsList.parts items).map (String.intercalate ",")
  | .obj members => if members.hasKey "toString" then none else some "[object Object]"
/-- The texts of the elements of an array as `Array.prototype.join` takes them. -/
def JsList.parts : JsList → Option (List String)
  | .nil => some []
  | .cons head tail =>
    match (if head.isNullish then some "" else JsVal.toJsString head), JsList.parts tail with
    | some a, some rest => some (a :: rest)
    | _, _ => none
end

/-- The expression `x || null` as a bound SQL parameter. -/
def JsVal.orNull (x : JsVal) : JsVal :=
  if x.truthy then x else .null

/-- The destructured body `const { name, phone, email, address } = req.body`. -/
structure Body where
  name : JsVal
  phone : JsVal
  email : JsVal
  address : JsVal
  deriving DecidableEq

/-! ## The phone pattern `/^1[3-9]\d{9}$/` -/

/-- One single-character item of a regular expression. -/
inductive CharClass where
  | lit (c : Char)
  | range (lo hi : Char)
  | digit
  deriving DecidableEq

/-- Whether a character is matched by a single-character item. -/
def CharClass.accepts : CharClass → Char → Bool
  | .lit c, x => x == c
  | .range lo hi, x => decide (lo ≤ x) && decide (x ≤ hi)
  | .digit, x => decide ('0' ≤ x) && decide (x ≤ '9')

/-- Matching of `^c₁c₂…cₙ$` (no flags): the whole input is consumed, one
character per item. -/
def matchAnchored : List CharClass → List Char → Bool
  | [], [] => true
  | c :: cs, x :: xs => c.accepts x && matchAnchored cs xs
  | _, _ => false

/-- The items of `/^1[3-9]\d{9}$/`. -/
def phoneRegex : List CharClass :=
  [.lit '1', .range '3' '9'] ++ List.replicate 9 .digit

/-- The call `phoneRegex.test(phone)` on a string. -/
def phoneRegexTest (s : String) : Bool :=
  matchAnchored phoneRegex s.data

/-- The mobile-number pattern in the words of the specification: exactly 11
ASCII digits, the first of which is 1 and the second of which is in 3..9. -/
def isMobileNumber (p : String) : Bool :=
  p.data.length == 11
    && p.data.all (fun c => decide ('0' ≤ c) && decide (c ≤ '9'))
    && p.data[0]? == some '1'
    && (match p.data[1]? with
        | some c => decide ('3' ≤ c) && decide (c ≤ '9')
        | none => false)

/-! ## The store -/

/-- A row of the table `contacts`. The four text columns hold the values that
were bound to them; `null` is SQL `NULL`. -/
structure Contact where
  id : Nat
  name : JsVal
  phone : JsVal
  email : JsVal
  address : JsVal
  deriving DecidableEq

/-- The table `contacts`: its rows and the next auto-increment value. -/
structure Store where
  rows : List Contact
  nextId : Nat
  deriving DecidableEq

/-- The table right after its creation: no rows, the counter at 1. -/
def Store.empty : Store := ⟨[], 1⟩

/-- Well-formedness the database engine maintains for a table whose primary
key `id` is auto-incremented: keys are unique and below the counter. -/
def Store.WF (s : Store) : Prop :=
  (s.rows.map Contact.id).Nodup ∧ ∀ c ∈ s.rows, c.id < s.nextId

instance (s : Store) : Decidable s.WF := by
  unfold Store.WF; infer_instance

/-- What the handlers establish for every row they write: name and phone are
truthy, the text `String(phone)` matches the pattern, the values of the phone
column are pairwise distinct, and an optional column is `NULL` or truthy. -/
def Store.Inv (s : Store) : Prop :=
  s.WF ∧ (s.rows.map Contact.phone).Nodup ∧
    ∀ c ∈ s.rows, c.name.truthy = true ∧ c.phone.truthy = true ∧
      (∃ text, c.phone.toJsString = some text ∧ isMobileNumber text = true) ∧
      c.email.orNull = c.email ∧ c.address.orNull = c.address

/-- Statement `SELECT * FROM contacts WHERE id = ?`. -/
def Store.selectById (s : Store) (id : Nat) : List Contact :=
  s.rows.filter (fun c => c.id == id)

/-- Statement `SELECT id FROM contacts WHERE phone = ?`. -/
def Store.selectIdByPhone (s : Store) (phone : JsVal) : List Nat :=
  (s.rows.filter (fun c => c.phone == phone)).map Contact.id

/-- Statement `SELECT id FROM contacts WHERE phone = ? AND id != ?`. -/
def Store.selectIdByPhoneExcept (s : Store) (phone : JsVal) (id : Nat) : List Nat :=
  (s.rows.filter (fun c => c.phone == phone && c.id != id)).map Contact.id

/-- Statement `SELECT * FROM contacts ORDER BY id DESC`. -/
def Store.selectAllDesc (s : Store) : List Contact :=
  s.rows.insertionSort (fun a b => b.id ≤ a.id)

/-- Statement `INSERT INTO contacts (name, phone, email, address) VALUES (?, ?, ?, ?)`:
returns `insertId` and the new table. -/
def Store.insert (s : Store) (name phone email address : JsVal) : Nat × Store :=
  (s.nextId, ⟨s.rows ++ [⟨s.nextId, name, phone, email, address⟩], s.nextId + 1⟩)

/-- Statement `UPDATE contacts SET name = ?, phone = ?, email = ?, address = ? WHERE id = ?`. -/
def Store.update (s : Store) (name phone email address : JsVal) (id : Nat) : Store :=
  ⟨s.rows.map (fun c => if c.id == id then ⟨c.id, name, phone, email, address⟩ else c),
    s.nextId⟩

/-- Statement `DELETE FROM contacts WHERE id = ?`. -/
def Store.delete (s : Store) (id : Nat) : Store :=
  ⟨s.rows.filter (fun c => c.id != id), s.nextId⟩

/-! ## Responses -/

/-- The `data` member of the JSON envelope. A member whose value is
`undefined` is not serialised, hence `absent`. -/
inductive Payload where
  | absent
  | contact (c : Contact)
  | contacts (cs : List Contact)
  deriving DecidableEq

/-- The first element `rows[0]` of a result set as a payload. -/
def Payload.first : List Contact → Payload
  | [] => .absent
  | c :: _ => .contact c

/-- An HTTP response: status code and JSON envelope. -/
structure Response where
  status : Nat
  success : Bool
  message : Option String
  data : Payload
  error : Option String
  deriving DecidableEq

/-- A failure envelope `res.status(code).json({ success: false, message })`. -/
def Response.fail (code : Nat) (msg : String) : Response :=
  ⟨code, false, some msg, .absent, none⟩

/-- The envelope of a `catch` block:
`res.status(500).json({ success: false, message, error: error.message })`. -/
def Response.thrown (msg errorMessage : String) : Response :=
  ⟨500, false, some msg, .absent, some errorMessage⟩

def msgNotFound : String := "联系人不存在"
def msgRequired : String := "姓名和手机号为必填项"
def msgBadPhone : String := "手机号格式不正确"
def msgPhoneExists : String := "该手机号已存在"
def msgPhoneUsed : String := "该手机号已被其他联系人使用"
def msgCreated : String := "联系人添加成功"
def msgUpdated : String := "联系人更新成功"
def msgDeleted : String := "联系人删除成功"
def msgCreateFailed : String := "添加联系人失败"
def msgUpdateFailed : String := "更新联系人失败"

/-- The message of the `TypeError` of a failed coercion to a string, in the
wording of the engine. -/
def msgToPrimitive : String := "Cannot convert object to primitive value"

/-! ## The handlers of `contacts.js` -/

/-- Handler `router.get('/')`. -/
def list (s : Store) : Response × Store :=
  (⟨200, true, none, .contacts s.selectAllDesc, none⟩, s)

/-- Handler `router.get('/:id')`. -/
def getById (s : Store) (id : Nat) : Response × Store :=
  let rows := s.selectById id
  if rows.length == 0 then (Response.fail 404 msgNotFound, s)
  else (⟨200, true, none, Payload.first rows, none⟩, s)

/-- Handler `router.post('/')`. A coercion that throws inside
`phoneRegex.test(phone)` is answered by the `catch` block. -/
def create (s : Store) (b : Body) : Response × Store :=
  if !b.name.truthy || !b.phone.truthy then
    (Response.fail 400 msgRequired, s)
  else
    match b.phone.toJsString with
    | none => (Response.thrown msgCreateFailed msgToPrimitive, s)
    | some text =>
      if !phoneRegexTest text then
        (Response.fail 400 msgBadPhone, s)
      else
        let existing := s.selectIdByPhone b.phone
        if existing.length > 0 then
          (Response.fail 400 msgPhoneExists, s)
        else
          let (insertId, s') := s.insert b.name b.phone b.email.orNull b.address.orNull
          let newContact := s'.selectById insertId
          (⟨201, true, some msgCreated, Payload.first newContact, none⟩, s')

/-- Handler `router.put('/:id')`. A coercion that throws inside
`phoneRegex.test(phone)` is answered by the `catch` block. -/
def update (s : Store) (id : Nat) (b : Body) : Response × Store :=
  let existing := s.selectById id
  if existing.length == 0 then
    (Response.fail 404 msgNotFound, s)
  else if !b.name.truthy || !b.phone.truthy then
    (Response.fail 400 msgRequired, s)
  else
    match b.phone.toJsString with
    | none => (Response.thrown msgUpdateFailed msgToPrimitive, s)
    | some text =>
      if !phoneRegexTest text then
        (Response.fail 400 msgBadPhone, s)
      else
        let phoneCheck := s.selectIdByPhoneExcept b.phone id
        if phoneCheck.length > 0 then
          (Response.fail 400 msgPhoneUsed, s)
        else
          let s' := s.update b.name b.phone b.email.orNull b.address.orNull id
          let updated := s'.selectById id
          (⟨200, true, some msgUpdated, Payload.first updated, none⟩, s')

/-- Handler `router.delete('/:id')`. -/
def delete (s : Store) (id : Nat) : Response × Store :=
  let existing := s.selectById id
  if existing.length == 0 then
    (Response.fail 404 msgNotFound, s)
  else
    (⟨200, true, some msgDeleted, .absent, none⟩, s.delete id)

/-- A state-changing request to the router. -/
inductive Request where
  | create (b : Body)
  | update (id : Nat) (b : Body)
  | delete (id : Nat)
  deriving DecidableEq

/-- The store after the router has handled one request. -/
def step (s : Store) : Request → Store
  | .create b => (create s b).2
  | .update id b => (update s id b).2
  | .delete id => (delete s id).2

/-- The store after the router has handled a sequence of requests one at a time. -/
def run (s : Store) (reqs : List Request) : Store :=
  reqs.foldl step s

/-- A body whose member `phone` is a string, `null` or absent. -/
def Body.textPhone (b : Body) : Prop :=
  b.phone = .undefined ∨ b.phone = .null ∨ ∃ p, b.phone = .str p

/-- A request whose body, when it has one, has a string, `null` or absent
member `phone`. -/
def Request.textPhone : Request → Prop
  | .create b => b.textPhone
  | .update _ b => b.textPhone
  | .delete _ => True

/-! ## The browser client `app.js` -/

/-- The code points `String.prototype.trim` strips: ECMAScript WhiteSpace and
LineTerminator. -/
def isJsWhiteSpace (c : Char) : Bool :=
  [0x09, 0x0A, 0x0B, 0x0C, 0x0D, 0x20, 0xA0, 0x1680, 0x2028, 0x2029, 0x202F, 0x205F,
    0x3000, 0xFEFF].contains c.toNat
    || (decide (0x2000 ≤ c.toNat) && decide (c.toNat ≤ 0x200A))

/-- JavaScript `String.prototype.trim`. -/
def jsTrim (s : String) : String :=
  ⟨((s.data.dropWhile isJsWhiteSpace).reverse.dropWhile isJsWhiteSpace).reverse⟩

/-- A string that consists of white space only (the empty string included). -/
def isBlank (s : String) : Bool :=
  s.data.all isJsWhiteSpace

/-- The constant `API_BASE_URL`. -/
def API_BASE_URL : String := "http://localhost:3000/api/contacts"

/-- HTTP methods the client uses. -/
inductive Method where
  | GET
  | POST
  | PUT
  | DELETE
  deriving DecidableEq

/-- A call `fetch(url, { method, body })`. -/
structure ClientRequest where
  method : Method
  url : String
  body : Option Body
  deriving DecidableEq

/-- The values of the four visible inputs of the form. -/
structure FormFields where
  name : String
  phone : String
  email : String
  address : String
  deriving DecidableEq

/-- What `#contacts-list` shows: the empty-state block or one item per contact. -/
inductive Listing where
  | emptyState
  | items (cs : List Contact)
  deriving DecidableEq

/-- The part of the page the script reads and writes. `defaults` are the
default values of the inputs given by the markup, which `contactForm.reset()`
restores. -/
structure Page where
  contactId : String
  fields : FormFields
  defaults : FormFields
  formTitle : String
  submitBtn : String
  cancelBtnDisplay : String
  contactsList : Listing
  loadingDisplay : String
  errorText : String
  errorDisplay : String
  alerts : List String
  deriving DecidableEq

/-- The network as the client sees it: a request against a backend state `W`
yields a parsed JSON envelope, or `none` when `fetch` or `response.json()`
throws, and a new backend state. -/
abbrev Fetch (W : Type) := ClientRequest → W → Option Response × W

def msgNetwork : String := "网络错误，请检查后端服务是否启动"

/-- The expression `message || dflt` on an optional envelope member. -/
def orDefault (message : Option String) (dflt : String) : String :=
  match message with
  | some m => if m != "" then m else dflt
  | none => dflt

/-- Function `showLoading`. -/
def showLoading (toShow : Bool) (pg : Page) : Page :=
  { pg with loadingDisplay := if toShow then "block" else "none" }

/-- Function `showError`. -/
def showError (message : String) (pg : Page) : Page :=
  { pg with errorText := message, errorDisplay := "block" }

/-- Function `hideError`. -/
def hideError (pg : Page) : Page :=
  { pg with errorDisplay := "none" }

/-- The call `alert(message)`: the message is appended to the alerts shown so far. -/
def alert (message : String) (pg : Page) : Page :=
  { pg with alerts := pg.alerts ++ [message] }

/-- Function `displayContacts`. -/
def displayContacts (contacts : List Contact) (pg : Page) : Page :=
  if contacts.length == 0 then { pg with contactsList := .emptyState }
  else { pg with contactsList := .items contacts }

/-- Function `resetForm`. -/
def resetForm (pg : Page) : Page :=
  { pg with
    fields := pg.defaults
    contactId := ""
    formTitle := "添加联系人"
    submitBtn := "添加"
    cancelBtnDisplay := "none" }

/-- Function `loadContacts`. A `data` member that is not an array makes
`displayContacts` throw, which the `catch` block reports as a network error. -/
def loadContacts {W : Type} (fetch : Fetch W) (st : W × Page) : W × Page :=
  let pg := hideError (showLoading true st.2)
  let (response, w) := fetch ⟨.GET, API_BASE_URL, none⟩ st.1
  let pg :=
    match response with
    | none => showError msgNetwork pg
    | some result =>
      if result.success then
        match result.data with
        | .contacts cs => displayContacts cs pg
        | _ => showError msgNetwork pg
      else showError (orDefault result.message "加载联系人列表失败") pg
  (w, showLoading false pg)

/-- The object `formData` built by `handleFormSubmit`: every input trimmed. -/
def formData (pg : Page) : Body :=
  ⟨.str (jsTrim pg.fields.name), .str (jsTrim pg.fields.phone),
    .str (jsTrim pg.fields.email), .str (jsTrim pg.fields.address)⟩

/-- The request `handleFormSubmit` sends: `PUT` to the item when the hidden
input `contact-id` is non-empty, `POST` to the collection otherwise. -/
def submitRequest (pg : Page) : ClientRequest :=
  let id := pg.contactId
  ⟨if id != "" then .PUT else .POST,
    if id != "" then API_BASE_URL ++ "/" ++ id else API_BASE_URL,
    some (formData pg)⟩

/-- Function `handleFormSubmit`. The list reload it starts is run to its end
before the final `showLoading(false)`; the page it leaves is the same. -/
def handleFormSubmit {W : Type} (fetch : Fetch W) (st : W × Page) : W × Page :=
  let id := st.2.contactId
  let pg := hideError (showLoading true st.2)
  let (response, w) := fetch (submitRequest st.2) st.1
  let (w, pg) :=
    match response with
    | none => (w, showError msgNetwork pg)
    | some result =>
      if result.success then
        let (w, pg) := loadContacts fetch (w, resetForm pg)
        (w, alert (if id != "" then "联系人更新成功！" else "联系人添加成功！") pg)
      else (w, showError (orDefault result.message "操作失败") pg)
  (w, showLoading false pg)

/-- Function `deleteContact`; `confirmed` is the answer to the `confirm` dialog. -/
def deleteContact {W : Type} (fetch : Fetch W) (confirmed : Bool) (id : Nat)
    (st : W × Page) : W × Page :=
  if !confirmed then st
  else
    let pg := hideError (showLoading true st.2)
    let (response, w) := fetch ⟨.DELETE, API_BASE_URL ++ "/" ++ toString id, none⟩ st.1
    let (w, pg) :=
      match response with
      | none => (w, showError msgNetwork pg)
      | some result =>
        if result.success then
          let (w, pg) := loadContacts fetch (w, pg)
          (w, alert "联系人删除成功！" pg)
        else (w, showError (orDefault result.message "删除失败") pg)
    (w, showLoading false pg)

/-- The click handler of the cancel button: `resetForm`. -/
def cancel {W : Type} (st : W × Page) : W × Page :=
  (st.1, resetForm st.2)

/-- The router as a client reaches it all of whose item requests address the
item `id`: the collection URL goes to the list and create handlers, every
other URL to the handlers of item `id`. A `POST` or `PUT` without a body is
not a request this client makes. -/
def serveItem (id : Nat) : Fetch Store := fun req s =>
  match req.method, req.body with
  | .GET, _ =>
    if req.url = API_BASE_URL then (some (list s).1, (list s).2)
    else (some (getById s id).1, (getById s id).2)
  | .POST, some b => (some (create s b).1, (create s b).2)
  | .PUT, some b => (some (update s id b).1, (update s id b).2)
  | .DELETE, _ => (some (delete s id).1, (delete s id).2)
  | _, _ => (none, s)

/-! ## Lemmas on the phone pattern -/

theorem phoneRegexTest_eq_isMobileNumber (p : String) :
    phoneRegexTest p = isMobileNumber p := by
  rcases p with ⟨l⟩
  rcases l with _ | ⟨a, _ | ⟨b, _ | ⟨c3, _ | ⟨c4, _ | ⟨c5, _ | ⟨c6, _ | ⟨c7, _ | ⟨c8, _ |
    ⟨c9, _ | ⟨c10, _ | ⟨c11, _ | ⟨c12, l⟩⟩⟩⟩⟩⟩⟩⟩⟩⟩⟩⟩ <;>
    simp [phoneRegexTest, phoneRegex, matchAnchored, CharClass.accepts, isMobileNumber,
      List.replicate]
  rw [Bool.eq_iff_iff]
  simp only [Bool.and_eq_true, decide_eq_true_eq, beq_iff_eq]
  constructor
  · rintro ⟨rfl, ⟨h1, h2⟩, h⟩
    have h0 : ('0' : Char) ≤ '3' := by decide
    exact ⟨⟨⟨⟨by decide, by decide⟩, ⟨le_trans h0 h1, h2⟩, h⟩, rfl⟩, h1, h2⟩
  · rintro ⟨⟨⟨_, _, h⟩, rfl⟩, h1, h2⟩
    exact ⟨rfl, ⟨h1, h2⟩, h⟩

/-! ## Lemmas on trimming -/

theorem phoneRegexTest_not_blank (p : String) (h : phoneRegexTest p = true) :
    isBlank p = false := by
  rcases p with ⟨l⟩
  cases l with
  | nil => simp [phoneRegexTest, phoneRegex, matchAnchored] at h
  | cons a l =>
    simp only [phoneRegexTest, phoneRegex, List.cons_append, matchAnchored, CharClass.accepts,
      Bool.and_eq_true, beq_iff_eq] at h
    have ha : a = '1' := h.1
    subst ha
    have h1 : isJsWhiteSpace '1' = false := by decide
    simp [isBlank, h1]

theorem jsTrim_of_isBlank (s : String) (h : isBlank s = true) : jsTrim s = "" := by
  have h1 : s.data.dropWhile isJsWhiteSpace = [] := by
    rw [List.dropWhile_eq_nil_iff]
    simpa [isBlank] using h
  simp [jsTrim, h1]

/-! ## The failure paths of `create` and `update` -/

theorem toJsString_str (x : String) : (JsVal.str x).toJsString = some x := by
  simp [JsVal.toJsString]

theorem truthy_of_ne_false {x : JsVal} (h : ¬ x.truthy = false) : x.truthy = true := by
  cases hx : x.truthy
  · exact absurd hx h
  · rfl

theorem create_of_falsy (s : Store) (b : Body)
    (h : b.name.truthy = false ∨ b.phone.truthy = false) :
    create s b = (Response.fail 400 msgRequired, s) := by
  unfold create
  rcases h with h | h <;> simp [h]

theorem create_of_throw (s : Store) (b : Body) (hn : b.name.truthy = true)
    (hp : b.phone.truthy = true) (ht : b.phone.toJsString = none) :
    create s b = (Response.thrown msgCreateFailed msgToPrimitive, s) := by
  unfold create
  simp [hn, hp, ht]

theorem create_of_bad_phone (s : Store) (b : Body) (hn : b.name.truthy = true)
    (hp : b.phone.truthy = true) (text : String) (ht : b.phone.toJsString = some text)
    (h : phoneRegexTest text = false) :
    create s b = (Response.fail 400 msgBadPhone, s) := by
  unfold create
  simp [hn, hp, ht, h]

theorem create_of_phone_taken (s : Store) (b : Body) (hn : b.name.truthy = true)
    (hp : b.phone.truthy = true) (text : String) (ht : b.phone.toJsString = some text)
    (h : phoneRegexTest text = true)
    (c : Contact) (hc : c ∈ s.rows) (hcp : c.phone = b.phone) :
    create s b = (Response.fail 400 msgPhoneExists, s) := by
  have hex : 0 < (s.selectIdByPhone b.phone).length := by
    unfold Store.selectIdByPhone
    rw [List.length_map, List.length_pos_iff_exists_mem]
    exact ⟨c, List.mem_filter.mpr ⟨hc, by simp [hcp]⟩⟩
  unfold create
  simp [hn, hp, ht, h, hex]

theorem create_of_phone_free (s : Store) (b : Body) (hn : b.name.truthy = true)
    (hp : b.phone.truthy = true) (text : String) (ht : b.phone.toJsString = some text)
    (h : phoneRegexTest text = true)
    (hfree : ∀ c ∈ s.rows, c.phone ≠ b.phone) :
    create s b =
      (⟨201, true, some msgCreated,
          Payload.first ((s.insert b.name b.phone b.email.orNull
            b.address.orNull).2.selectById s.nextId), none⟩,
        (s.insert b.name b.phone b.email.orNull b.address.orNull).2) := by
  have hex : s.selectIdByPhone b.phone = [] := by
    unfold Store.selectIdByPhone
    rw [List.map_eq_nil_iff, List.filter_eq_nil_iff]
    intro c hc
    simpa using hfree c hc
  unfold create
  simp [hn, hp, ht, h, hex, Store.insert]

/-! ## Lemmas on the SQL statements -/

theorem filter_id_of_mem (l : List Contact) (hnd : (l.map Contact.id).Nodup) (c : Contact)
    (hc : c ∈ l) : l.filter (fun d => d.id == c.id) = [c] := by
  induction l with
  | nil => cases hc
  | cons d t ih =>
    rw [List.map_cons, List.nodup_cons] at hnd
    rcases List.mem_cons.mp hc with rfl | hct
    · have ht : t.filter (fun d => d.id == c.id) = [] := by
        rw [List.filter_eq_nil_iff]
        intro x hx hxc
        exact hnd.1 (List.mem_map.mpr ⟨x, hx, by simpa using hxc⟩)
      simp [List.filter_cons, ht]
    · have hne : d.id ≠ c.id := by
        intro h
        exact hnd.1 (List.mem_map.mpr ⟨c, hct, h.symm⟩)
      simp [List.filter_cons, hne, ih hnd.2 hct]

theorem filter_id_ne_eq_erase (l : List Contact) (hnd : (l.map Contact.id).Nodup) (c : Contact)
    (hc : c ∈ l) : l.filter (fun d => d.id != c.id) = l.erase c := by
  induction l with
  | nil => cases hc
  | cons d t ih =>
    rw [List.map_cons, List.nodup_cons] at hnd
    rcases List.mem_cons.mp hc with rfl | hct
    · have ht : t.filter (fun d => d.id != c.id) = t := by
        rw [List.filter_eq_self]
        intro x hx
        have : x.id ≠ c.id := fun h => hnd.1 (List.mem_map.mpr ⟨x, hx, h⟩)
        simpa using this
      simp [List.filter_cons, ht]
    · have hne : d.id ≠ c.id := by
        intro h
        exact hnd.1 (List.mem_map.mpr ⟨c, hct, h.symm⟩)
      have hdc : d ≠ c := fun h => hne (by rw [h])
      rw [List.erase_cons_tail (by simpa using hdc)]
      simp [List.filter_cons, hne, ih hnd.2 hct]

theorem selectById_of_mem (s : Store) (hwf : s.WF) (c : Contact) (hc : c ∈ s.rows) :
    s.selectById c.id = [c] :=
  filter_id_of_mem s.rows hwf.1 c hc

theorem selectById_eq_nil (s : Store) (id : Nat) (h : ∀ c ∈ s.rows, c.id ≠ id) :
    s.selectById id = [] := by
  unfold Store.selectById
  rw [List.filter_eq_nil_iff]
  intro c hc
  simpa using h c hc

theorem getById_of_mem (s : Store) (hwf : s.WF) (c : Contact) (hc : c ∈ s.rows) :
    getById s c.id = (⟨200, true, none, .contact c, none⟩, s) := by
  unfold getById
  simp [selectById_of_mem s hwf c hc, Payload.first]

theorem getById_of_not_mem (s : Store) (id : Nat) (h : ∀ c ∈ s.rows, c.id ≠ id) :
    getById s id = (Response.fail 404 msgNotFound, s) := by
  unfold getById
  simp [selectById_eq_nil s id h]

theorem WF_empty : Store.empty.WF := by
  simp [Store.WF, Store.empty]

theorem insert_WF (s : Store) (hwf : s.WF) (n p e a : JsVal) :
    (s.insert n p e a).2.WF := by
  obtain ⟨hnd, hlt⟩ := hwf
  constructor
  · simp only [Store.insert, List.map_append, List.map_cons, List.map_nil]
    rw [List.nodup_append]
    refine ⟨hnd, List.nodup_singleton _, ?_⟩
    intro x hx hx2
    rw [List.mem_singleton] at hx2
    obtain ⟨c, hc, rfl⟩ := List.mem_map.mp hx
    exact absurd hx2 (Nat.ne_of_lt (hlt c hc))
  · intro c hc
    simp only [Store.insert, List.mem_append, List.mem_singleton] at hc
    rcases hc with hc | rfl
    · exact Nat.lt_succ_of_lt (hlt c hc)
    · exact Nat.lt_succ_self _

theorem update_map_id (s : Store) (n p e a : JsVal) (id : Nat) :
    (s.update n p e a id).rows.map Contact.id = s.rows.map Contact.id := by
  simp only [Store.update, List.map_map]
  apply List.map_congr_left
  intro c _
  by_cases h : c.id = id <;> simp [h]

theorem update_WF (s : Store) (hwf : s.WF) (n p e a : JsVal) (id : Nat) :
    (s.update n p e a id).WF := by
  obtain ⟨hnd, hlt⟩ := hwf
  constructor
  · rw [update_map_id]; exact hnd
  · intro c hc
    have hmem : c.id ∈ (s.update n p e a id).rows.map Contact.id := List.mem_map_of_mem _ hc
    rw [update_map_id] at hmem
    obtain ⟨d, hd, hdc⟩ := List.mem_map.mp hmem
    rw [← hdc]
    exact hlt d hd

theorem delete_WF (s : Store) (hwf : s.WF) (id : Nat) : (s.delete id).WF := by
  obtain ⟨hnd, hlt⟩ := hwf
  constructor
  · exact hnd.sublist (List.Sublist.map _ (List.filter_sublist _))
  · intro c hc
    exact hlt c (List.mem_filter.mp hc).1

/-! ## The store a handler leaves -/

theorem create_store_cases (s : Store) (b : Body) :
    (create s b).2 = s ∨
      (b.name.truthy = true ∧ b.phone.truthy = true ∧
        (∃ text, b.phone.toJsString = some text ∧ phoneRegexTest text = true) ∧
        (∀ c ∈ s.rows, c.phone ≠ b.phone) ∧
        (create s b).2 = (s.insert b.name b.phone b.email.orNull b.address.orNull).2) := by
  by_cases hf : b.name.truthy = false ∨ b.phone.truthy = false
  · left; rw [create_of_falsy s b hf]
  · have hn : b.name.truthy = true := truthy_of_ne_false (fun h => hf (Or.inl h))
    have hp : b.phone.truthy = true := truthy_of_ne_false (fun h => hf (Or.inr h))
    cases ht : b.phone.toJsString with
    | none => left; rw [create_of_throw s b hn hp ht]
    | some text =>
      cases hre : phoneRegexTest text
      · left; rw [create_of_bad_phone s b hn hp text ht hre]
      · by_cases hex : ∃ c ∈ s.rows, c.phone = b.phone
        · obtain ⟨c, hc, hcp⟩ := hex
          left; rw [create_of_phone_taken s b hn hp text ht hre c hc hcp]
        · have hfree : ∀ c ∈ s.rows, c.phone ≠ b.phone :=
            fun c hc hcp => hex ⟨c, hc, hcp⟩
          right
          refine ⟨hn, hp, ⟨text, rfl, hre⟩, hfree, ?_⟩
          rw [create_of_phone_free s b hn hp text ht hre hfree]

theorem update_of_valid (s : Store) (id : Nat) (b : Body)
    (hid : s.selectById id ≠ []) (hn : b.name.truthy = true) (hp : b.phone.truthy = true)
    (text : String) (ht : b.phone.toJsString = some text)
    (hre : phoneRegexTest text = true)
    (hfree : ∀ c ∈ s.rows, c.phone = b.phone → c.id = id) :
    update s id b =
      (⟨200, true, some msgUpdated,
          Payload.first ((s.update b.name b.phone b.email.orNull
            b.address.orNull id).selectById id), none⟩,
        s.update b.name b.phone b.email.orNull b.address.orNull id) := by
  have hex : s.selectIdByPhoneExcept b.phone id = [] := by
    unfold Store.selectIdByPhoneExcept
    rw [List.map_eq_nil_iff, List.filter_eq_nil_iff]
    intro c hc
    have := hfree c hc
    simp only [Bool.and_eq_true, beq_iff_eq, bne_iff_ne, ne_eq, not_and, not_not]
    exact this
  unfold update
  simp [hid, hn, hp, ht, hre, hex]

theorem update_store_cases (s : Store) (id : Nat) (b : Body) :
    (update s id b).2 = s ∨
      (b.name.truthy = true ∧ b.phone.truthy = true ∧
        (∃ text, b.phone.toJsString = some text ∧ phoneRegexTest text = true) ∧
        (∀ c ∈ s.rows, c.phone = b.phone → c.id = id) ∧
        (update s id b).2 = s.update b.name b.phone b.email.orNull b.address.orNull id) := by
  by_cases hid : s.selectById id = []
  · left; unfold update; simp [hid]
  by_cases hf : b.name.truthy = false ∨ b.phone.truthy = false
  · left; unfold update
    rcases hf with h | h <;> simp [hid, h]
  have hn : b.name.truthy = true := truthy_of_ne_false (fun h => hf (Or.inl h))
  have hp : b.phone.truthy = true := truthy_of_ne_false (fun h => hf (Or.inr h))
  cases ht : b.phone.toJsString with
  | none => left; unfold update; simp [hid, hn, hp, ht]
  | some text =>
    cases hre : phoneRegexTest text
    · left; unfold update; simp [hid, hn, hp, ht, hre]
    · by_cases hex : ∃ c ∈ s.rows, c.phone = b.phone ∧ c.id ≠ id
      · obtain ⟨c, hc, hcp, hci⟩ := hex
        have hlen : 0 < (s.selectIdByPhoneExcept b.phone id).length := by
          unfold Store.selectIdByPhoneExcept
          rw [List.length_map, List.length_pos_iff_exists_mem]
          exact ⟨c, List.mem_filter.mpr ⟨hc, by simp [hcp, hci]⟩⟩
        left; unfold update; simp [hid, hn, hp, ht, hre, hlen]
      · have hfree : ∀ c ∈ s.rows, c.phone = b.phone → c.id = id := by
          intro c hc hcp
          by_contra hne
          exact hex ⟨c, hc, hcp, hne⟩
        right
        refine ⟨hn, hp, ⟨text, rfl, hre⟩, hfree, ?_⟩
        rw [update_of_valid s id b hid hn hp text ht hre hfree]

theorem delete_store_cases (s : Store) (id : Nat) :
    (delete s id).2 = s ∨ (delete s id).2 = s.delete id := by
  unfold delete
  simp only []
  split_ifs
  · left; rfl
  · right; rfl

/-! ## The invariant of the store -/

theorem orNull_orNull (x : JsVal) : x.orNull.orNull = x.orNull := by
  cases h : x.truthy
  · have h1 : x.orNull = .null := by simp [JsVal.orNull, h]
    rw [h1]
    rfl
  · have h1 : x.orNull = x := by simp [JsVal.orNull, h]
    rw [h1, h1]

theorem Inv_empty : Store.empty.Inv := by
  refine ⟨WF_empty, ?_, ?_⟩ <;> simp [Store.empty]

theorem insert_Inv (s : Store) (h : s.Inv) (n p e a : JsVal)
    (hn : n.truthy = true) (hp : p.truthy = true)
    (ht : ∃ text, p.toJsString = some text ∧ isMobileNumber text = true)
    (hfree : ∀ c ∈ s.rows, c.phone ≠ p)
    (he : e.orNull = e) (ha : a.orNull = a) : (s.insert n p e a).2.Inv := by
  obtain ⟨hwf, hnd, hrest⟩ := h
  refine ⟨insert_WF s hwf n p e a, ?_, ?_⟩
  · simp only [Store.insert, List.map_append, List.map_cons, List.map_nil]
    rw [List.nodup_append]
    refine ⟨hnd, List.nodup_singleton _, ?_⟩
    intro x hx hx2
    rw [List.mem_singleton] at hx2
    obtain ⟨c, hc, rfl⟩ := List.mem_map.mp hx
    exact hfree c hc hx2
  · intro c hc
    simp only [Store.insert, List.mem_append, List.mem_singleton] at hc
    rcases hc with hc | rfl
    · exact hrest c hc
    · exact ⟨hn, hp, ht, he, ha⟩

theorem update_phones_nodup (l : List Contact) (n p e a : JsVal) (id : Nat)
    (hid : (l.map Contact.id).Nodup) (hnd : (l.map Contact.phone).Nodup)
    (hfree : ∀ c ∈ l, c.phone = p → c.id = id) :
    ((l.map (fun c => if c.id == id then (⟨c.id, n, p, e, a⟩ : Contact) else c)).map
      Contact.phone).Nodup := by
  induction l with
  | nil => simp
  | cons d t ih =>
    rw [List.map_cons, List.nodup_cons] at hid hnd
    have iht := ih hid.2 hnd.2 (fun c hc => hfree c (List.mem_cons_of_mem _ hc))
    rw [List.map_cons, List.map_cons, List.nodup_cons]
    refine ⟨?_, iht⟩
    intro hmem
    obtain ⟨x, hx, hxp⟩ := List.mem_map.mp hmem
    obtain ⟨y, hy, rfl⟩ := List.mem_map.mp hx
    have hyd : y.id ≠ d.id := fun h => hid.1 (List.mem_map.mpr ⟨y, hy, h⟩)
    have hypd : y.phone ≠ d.phone := fun h => hnd.1 (List.mem_map.mpr ⟨y, hy, h⟩)
    by_cases hy2 : y.id = id <;> by_cases hd2 : d.id = id
    · exact hyd (hy2.trans hd2.symm)
    · simp only [hy2, hd2, beq_self_eq_true, if_true, beq_iff_eq, if_false] at hxp
      exact hd2 (hfree d (List.mem_cons_self _ _) hxp.symm)
    · simp only [hy2, hd2, beq_self_eq_true, if_true, beq_iff_eq, if_false] at hxp
      exact hy2 (hfree y (List.mem_cons_of_mem _ hy) hxp)
    · simp only [hy2, hd2, beq_iff_eq, if_false] at hxp
      exact hypd hxp

theorem update_Inv (s : Store) (h : s.Inv) (n p e a : JsVal) (id : Nat)
    (hn : n.truthy = true) (hp : p.truthy = true)
    (ht : ∃ text, p.toJsString = some text ∧ isMobileNumber text = true)
    (hfree : ∀ c ∈ s.rows, c.phone = p → c.id = id)
    (he : e.orNull = e) (ha : a.orNull = a) : (s.update n p e a id).Inv := by
  obtain ⟨hwf, hnd, hrest⟩ := h
  refine ⟨update_WF s hwf n p e a id, ?_, ?_⟩
  · exact update_phones_nodup s.rows n p e a id hwf.1 hnd hfree
  · intro c hc
    simp only [Store.update, List.mem_map] at hc
    obtain ⟨d, hd, rfl⟩ := hc
    by_cases hd2 : d.id = id
    · simpa [hd2] using ⟨hn, hp, ht, he, ha⟩
    · simpa [hd2] using hrest d hd

theorem delete_Inv (s : Store) (h : s.Inv) (id : Nat) : (s.delete id).Inv := by
  obtain ⟨hwf, hnd, hrest⟩ := h
  refine ⟨delete_WF s hwf id, ?_, ?_⟩
  · exact hnd.sublist (List.Sublist.map _ (List.filter_sublist _))
  · intro c hc
    exact hrest c (List.mem_filter.mp hc).1

theorem step_Inv (s : Store) (h : s.Inv) (r : Request) : (step s r).Inv := by
  cases r with
  | create b =>
    rcases create_store_cases s b with hs | ⟨hn, hp, ⟨text, ht, hre⟩, hfree, hs⟩
    · simp only [step, hs]; exact h
    · simp only [step, hs]
      exact insert_Inv s h _ _ _ _ hn hp
        ⟨text, ht, by rw [← phoneRegexTest_eq_isMobileNumber]; exact hre⟩ hfree
        (orNull_orNull _) (orNull_orNull _)
  | update id b =>
    rcases update_store_cases s id b with hs | ⟨hn, hp, ⟨text, ht, hre⟩, hfree, hs⟩
    · simp only [step, hs]; exact h
    · simp only [step, hs]
      exact update_Inv s h _ _ _ _ id hn hp
        ⟨text, ht, by rw [← phoneRegexTest_eq_isMobileNumber]; exact hre⟩ hfree
        (orNull_orNull _) (orNull_orNull _)
  | delete id =>
    rcases delete_store_cases s id with hs | hs
    · simp only [step, hs]; exact h
    · simp only [step, hs]; exact delete_Inv s h id

theorem run_Inv (reqs : List Request) (s : Store) (h : s.Inv) : (run s reqs).Inv := by
  induction reqs generalizing s with
  | nil => exact h
  | cons r rs ih => exact ih (step s r) (step_Inv s h r)

/-! ## Requests whose phone is a string -/

theorem str_of_textPhone (b : Body) (h : b.textPhone) (hp : b.phone.truthy = true) :
    ∃ p, b.phone = .str p := by
  rcases h with h | h | h
  · rw [h] at hp; simp [JsVal.truthy] at hp
  · rw [h] at hp; simp [JsVal.truthy] at hp
  · exact h

theorem step_text_phones (s : Store) (r : Request) (hr : r.textPhone)
    (h : ∀ c ∈ s.rows, ∃ p, c.phone = .str p) :
    ∀ c ∈ (step s r).rows, ∃ p, c.phone = .str p := by
  cases r with
  | create b =>
    rcases create_store_cases s b with hs | ⟨_, hp, _, _, hs⟩
    · simp only [step, hs]; exact h
    · simp only [step, hs, Store.insert]
      intro c hc
      rcases List.mem_append.mp hc with hc | hc
      · exact h c hc
      · rw [List.mem_singleton] at hc
        subst hc
        exact str_of_textPhone b hr hp
  | update id b =>
    rcases update_store_cases s id b with hs | ⟨_, hp, _, _, hs⟩
    · simp only [step, hs]; exact h
    · simp only [step, hs, Store.update]
      intro c hc
      obtain ⟨d, hd, rfl⟩ := List.mem_map.mp hc
      by_cases hd2 : d.id = id
      · simpa [hd2] using str_of_textPhone b hr hp
      · simpa [hd2] using h d hd
  | delete id =>
    rcases delete_store_cases s id with hs | hs
    · simp only [step, hs]; exact h
    · simp only [step, hs, Store.delete]
      intro c hc
      exact h c (List.mem_filter.mp hc).1

/-- After requests whose phone member is a string, `null` or absent, handled
one at a time from the empty store, every stored phone is a string that
matches the pattern, and no two stored phones are equal. -/
theorem run_text_phones (reqs : List Request) (hreqs : ∀ r ∈ reqs, r.textPhone) :
    (∀ c ∈ (run Store.empty reqs).rows, ∃ p, c.phone = .str p ∧ isMobileNumber p = true) ∧
    (run Store.empty reqs).rows.Pairwise (fun x y => x.phone ≠ y.phone) := by
  have hstr : ∀ (rs : List Request) (s : Store), (∀ r ∈ rs, r.textPhone) →
      (∀ c ∈ s.rows, ∃ p, c.phone = .str p) →
      ∀ c ∈ (run s rs).rows, ∃ p, c.phone = .str p := by
    intro rs
    induction rs with
    | nil => intro s _ h; exact h
    | cons r rs ih =>
      intro s hrs h
      exact ih (step s r) (fun r2 hr2 => hrs r2 (List.mem_cons_of_mem _ hr2))
        (step_text_phones s r (hrs r (List.mem_cons_self _ _)) h)
  have hinv := run_Inv reqs Store.empty Inv_empty
  refine ⟨?_, List.pairwise_map.mp hinv.2.1⟩
  intro c hc
  obtain ⟨p, hp⟩ := hstr reqs Store.empty hreqs (by simp [Store.empty]) c hc
  obtain ⟨_, _, ⟨text, ht, hm⟩, _⟩ := hinv.2.2 c hc
  rw [hp, toJsString_str] at ht
  exact ⟨p, hp, by rw [Option.some.inj ht]; exact hm⟩

/-! ## Create: required fields -/

/-- C1, as the code behaves: a `POST /api/contacts` whose name or phone is
missing, `null` or the empty string, or whose phone is white space only, is
answered with status 400, `success: false`, and the store is unchanged. A name
that is white space only is not rejected by the router itself; the form
handler of the client trims every field, so a form submitted in Add mode with
a blank name or phone sends the empty string and is answered with 400. -/
theorem create_required_fields (s : Store) :
    (∀ b : Body,
      (b.name = .undefined ∨ b.name = .null ∨ b.name = .str "" ∨
        b.phone = .undefined ∨ b.phone = .null ∨ ∃ p, b.phone = .str p ∧ isBlank p = true) →
      (create s b).1.status = 400 ∧ (create s b).1.success = false ∧
        (create s b).1.data = .absent ∧ (create s b).2 = s) ∧
    (∀ pg : Page, pg.contactId = "" →
      (isBlank pg.fields.name = true ∨ isBlank pg.fields.phone = true) →
      (submitRequest pg).method = .POST ∧ (submitRequest pg).url = API_BASE_URL ∧
        (submitRequest pg).body = some (formData pg) ∧
        create s (formData pg) = (Response.fail 400 msgRequired, s)) := by
  constructor
  · intro b h
    by_cases hf : b.name.truthy = false ∨ b.phone.truthy = false
    · rw [create_of_falsy s b hf]
      simp [Response.fail]
    · have hn : b.name.truthy = true := truthy_of_ne_false (fun h => hf (Or.inl h))
      have hp : b.phone.truthy = true := truthy_of_ne_false (fun h => hf (Or.inr h))
      rcases h with h | h | h | h | h | ⟨p, h, hblank⟩
      · simp [h, JsVal.truthy] at hn
      · simp [h, JsVal.truthy] at hn
      · simp [h, JsVal.truthy] at hn
      · simp [h, JsVal.truthy] at hp
      · simp [h, JsVal.truthy] at hp
      · have ht : b.phone.toJsString = some p := by rw [h]; exact toJsString_str p
        have hbad : phoneRegexTest p = false := by
          cases hre : phoneRegexTest p
          · rfl
          · have := phoneRegexTest_not_blank p hre
            rw [hblank] at this
            cases this
        rw [create_of_bad_phone s b hn hp p ht hbad]
        simp [Response.fail]
  · intro pg hid h
    refine ⟨by simp [submitRequest, hid], by simp [submitRequest, hid],
      by simp [submitRequest], ?_⟩
    apply create_of_falsy
    rcases h with h | h
    · left
      simp [formData, jsTrim_of_isBlank _ h, JsVal.truthy]
    · right
      simp [formData, jsTrim_of_isBlank _ h, JsVal.truthy]

/-- Witness for C1: an empty name sent to the router, and a form in Add mode
whose name input holds three spaces. -/
theorem create_required_fields_witness :
    ((create Store.empty ⟨.str "", .str "13800001111", .undefined, .undefined⟩).1.status = 400 ∧
      (create Store.empty ⟨.str "", .str "13800001111", .undefined, .undefined⟩).2
        = Store.empty) ∧
    create Store.empty
        (formData ⟨"", ⟨"   ", "13800001111", "", ""⟩, ⟨"", "", "", ""⟩, "", "", "",
          .emptyState, "", "", "", []⟩)
      = (Response.fail 400 msgRequired, Store.empty) :=
  ⟨⟨((create_required_fields Store.empty).1 _ (Or.inr (Or.inr (Or.inl rfl)))).1,
      ((create_required_fields Store.empty).1 _ (Or.inr (Or.inr (Or.inl rfl)))).2.2.2⟩,
    ((create_required_fields Store.empty).2
      ⟨"", ⟨"   ", "13800001111", "", ""⟩, ⟨"", "", "", ""⟩, "", "", "",
          .emptyState, "", "", "", []⟩ rfl (Or.inl (by decide))).2.2.2⟩

/-- C1 fails as stated: a name of three spaces with a valid phone is accepted by
`POST /api/contacts` (status 201) and a row is inserted. -/
theorem create_blank_name_accepted :
    isBlank "   " = true ∧
    create Store.empty ⟨.str "   ", .str "13800001111", .undefined, .undefined⟩
      = (⟨201, true, some msgCreated,
            .contact ⟨1, .str "   ", .str "13800001111", .null, .null⟩, none⟩,
          ⟨[⟨1, .str "   ", .str "13800001111", .null, .null⟩], 2⟩) := by
  decide

/-! ## Create: phone pattern -/

/-- C2: for every store and every non-empty name, a create whose phone string
is not exactly 11 ASCII digits with first digit 1 and second digit in 3..9 is
answered with status 400, `success: false` (the message is the one of the
required-field check when the phone is the empty string and the one of the
pattern check otherwise), and the store is unchanged. -/
theorem create_rejects_bad_phone (s : Store) (n p : String) (e a : JsVal)
    (hn : n ≠ "") (hp : isMobileNumber p = false) :
    create s ⟨.str n, .str p, e, a⟩
      = (⟨400, false, some (if p = "" then msgRequired else msgBadPhone), .absent, none⟩,
          s) := by
  by_cases hpe : p = ""
  · rw [create_of_falsy s _ (Or.inr (by simp [JsVal.truthy, hpe]))]
    simp [Response.fail, hpe]
  · rw [create_of_bad_phone s ⟨.str n, .str p, e, a⟩ (by simpa [JsVal.truthy] using hn)
      (by simpa [JsVal.truthy] using hpe) p (toJsString_str p)
      (by rw [phoneRegexTest_eq_isMobileNumber]; exact hp)]
    simp [Response.fail, hpe]

/-- Witness for C2: the phone "12345". -/
theorem create_rejects_bad_phone_witness :
    create Store.empty ⟨.str "Bob", .str "12345", .undefined, .undefined⟩
      = (⟨400, false, some msgBadPhone, .absent, none⟩, Store.empty) :=
  create_rejects_bad_phone Store.empty "Bob" "12345" .undefined .undefined
    (by decide) (by decide)

/-! ## Create: duplicate phone -/

/-- C3: for every store that holds a contact with phone `p`, `p` matching the
pattern, and every non-empty name, a create with phone `p` is answered with
the conflict envelope (status 400, `success: false`) and the store is
unchanged; and of two consecutive creates with the same valid phone and
non-empty names the second is answered with the conflict envelope and changes
nothing, whatever the first did. -/
theorem create_conflict (s : Store) (n p : String) (e a : JsVal)
    (hn : n ≠ "") (hp : isMobileNumber p = true) :
    ((∃ c ∈ s.rows, c.phone = .str p) →
      create s ⟨.str n, .str p, e, a⟩
        = (⟨400, false, some msgPhoneExists, .absent, none⟩, s)) ∧
    (∀ (n2 : String) (e2 a2 : JsVal), n2 ≠ "" →
      create (create s ⟨.str n, .str p, e, a⟩).2 ⟨.str n2, .str p, e2, a2⟩
        = (⟨400, false, some msgPhoneExists, .absent, none⟩,
            (create s ⟨.str n, .str p, e, a⟩).2)) := by
  have hpe : p ≠ "" := by
    rintro rfl
    simp [isMobileNumber] at hp
  have hre : phoneRegexTest p = true := by
    rw [phoneRegexTest_eq_isMobileNumber]; exact hp
  have key : ∀ (t : Store) (m : String) (e3 a3 : JsVal), m ≠ "" →
      (∃ c ∈ t.rows, c.phone = .str p) →
      create t ⟨.str m, .str p, e3, a3⟩
        = (⟨400, false, some msgPhoneExists, .absent, none⟩, t) := by
    intro t m e3 a3 hm ⟨c, hc, hcp⟩
    exact create_of_phone_taken t ⟨.str m, .str p, e3, a3⟩ (by simpa [JsVal.truthy] using hm)
      (by simpa [JsVal.truthy] using hpe) p (toJsString_str p) hre c hc hcp
  refine ⟨key s n e a hn, ?_⟩
  intro n2 e2 a2 hn2
  apply key _ n2 e2 a2 hn2
  by_cases hex : ∃ c ∈ s.rows, c.phone = .str p
  · rw [key s n e a hn hex]
    exact hex
  · rw [create_of_phone_free s ⟨.str n, .str p, e, a⟩ (by simpa [JsVal.truthy] using hn)
      (by simpa [JsVal.truthy] using hpe) p (toJsString_str p) hre
      (by
        intro c hc hcp
        exact hex ⟨c, hc, hcp⟩)]
    exact ⟨⟨s.nextId, .str n, .str p, e.orNull, a.orNull⟩, by simp [Store.insert], rfl⟩

/-- Witness for C3: the phone "13800001111" created twice. -/
theorem create_conflict_witness :
    (create (create Store.empty ⟨.str "Ann", .str "13800001111", .undefined, .undefined⟩).2
        ⟨.str "Ben", .str "13800001111", .undefined, .undefined⟩).1.status = 400 :=
  congrArg (fun r => r.1.status)
    ((create_conflict Store.empty "Ann" "13800001111" .undefined .undefined
      (by decide) (by decide)).2 "Ben" .undefined .undefined (by decide))

/-! ## Update: unknown id -/

/-- C5: for every store, every id no stored contact has and every body, valid
or not, an update is answered with status 404, `success: false`, and the
store is unchanged: the lookup precedes the validation of the fields. -/
theorem update_unknown_id (s : Store) (id : Nat) (b : Body)
    (h : ∀ c ∈ s.rows, c.id ≠ id) :
    update s id b = (⟨404, false, some msgNotFound, .absent, none⟩, s) := by
  have hsel : s.selectById id = [] := selectById_eq_nil s id h
  unfold update
  simp [hsel, Response.fail]

/-- Witness for C5: id 999999 on a store with one contact, with a body that
would fail validation. -/
theorem update_unknown_id_witness :
    update ⟨[⟨1, .str "Ann", .str "13800001111", .null, .null⟩], 2⟩ 999999
        ⟨.str "", .str "12345", .undefined, .undefined⟩
      = (⟨404, false, some msgNotFound, .absent, none⟩,
          ⟨[⟨1, .str "Ann", .str "13800001111", .null, .null⟩], 2⟩) :=
  update_unknown_id _ 999999 _ (by decide)

/-! ## Create, then read -/

/-- C4: for every well-formed store, every non-empty name and every phone that
matches the pattern and that no stored contact holds, a create is answered
with status 201 and a contact whose id is assigned by the store (no row had it
before), and a get-by-id with that id right afterwards is answered with status
200 and the same contact: the name and phone that were sent, and email and
address equal to the supplied strings, or `NULL` when they were absent, `null`
or empty. -/
theorem create_then_getById (s : Store) (hwf : s.WF) (n p : String) (e a : JsVal)
    (hn : n ≠ "") (hp : isMobileNumber p = true) (hfree : ∀ c ∈ s.rows, c.phone ≠ .str p) :
    ∃ c : Contact,
      (create s ⟨.str n, .str p, e, a⟩).1 = ⟨201, true, some msgCreated, .contact c, none⟩ ∧
      (∀ d ∈ s.rows, d.id ≠ c.id) ∧
      getById (create s ⟨.str n, .str p, e, a⟩).2 c.id
        = (⟨200, true, none, .contact c, none⟩, (create s ⟨.str n, .str p, e, a⟩).2) ∧
      c.name = .str n ∧ c.phone = .str p ∧
      (∀ x, e = .str x → x ≠ "" → c.email = .str x) ∧
      (e = .undefined ∨ e = .null ∨ e = .str "" → c.email = .null) ∧
      (∀ x, a = .str x → x ≠ "" → c.address = .str x) ∧
      (a = .undefined ∨ a = .null ∨ a = .str "" → c.address = .null) := by
  have hpe : p ≠ "" := by
    rintro rfl
    simp [isMobileNumber] at hp
  have hcreate := create_of_phone_free s ⟨.str n, .str p, e, a⟩
    (by simpa [JsVal.truthy] using hn) (by simpa [JsVal.truthy] using hpe) p
    (toJsString_str p) (by rw [phoneRegexTest_eq_isMobileNumber]; exact hp) hfree
  simp only at hcreate
  have hwf2 := insert_WF s hwf (.str n) (.str p) e.orNull a.orNull
  have hmem : (⟨s.nextId, .str n, .str p, e.orNull, a.orNull⟩ : Contact)
      ∈ (s.insert (.str n) (.str p) e.orNull a.orNull).2.rows := by
    simp [Store.insert]
  have hsel := selectById_of_mem _ hwf2 _ hmem
  have hget := getById_of_mem _ hwf2 _ hmem
  simp only at hsel hget
  refine ⟨⟨s.nextId, .str n, .str p, e.orNull, a.orNull⟩, ?_, ?_, ?_, rfl, rfl, ?_, ?_, ?_, ?_⟩
  · rw [hcreate, hsel]; rfl
  · intro d hd
    exact Nat.ne_of_lt (hwf.2 d hd)
  · rw [hcreate]; exact hget
  · rintro x rfl hx
    simp [JsVal.orNull, JsVal.truthy, hx]
  · rintro (rfl | rfl | rfl) <;> simp [JsVal.orNull, JsVal.truthy]
  · rintro x rfl hx
    simp [JsVal.orNull, JsVal.truthy, hx]
  · rintro (rfl | rfl | rfl) <;> simp [JsVal.orNull, JsVal.truthy]

/-- Witness for C4: Alice with phone "13900001234" and no email or address, on
the empty store. -/
theorem create_then_getById_witness :
    ∃ c : Contact,
      (create Store.empty ⟨.str "Alice", .str "13900001234", .undefined, .undefined⟩).1
        = ⟨201, true, some msgCreated, .contact c, none⟩ ∧
      getById (create Store.empty ⟨.str "Alice", .str "13900001234", .undefined, .undefined⟩).2
          c.id
        = (⟨200, true, none, .contact c, none⟩,
            (create Store.empty ⟨.str "Alice", .str "13900001234", .undefined, .undefined⟩).2) ∧
      c.name = .str "Alice" ∧ c.phone = .str "13900001234" ∧ c.email = .null ∧
      c.address = .null := by
  obtain ⟨c, h1, _, h3, h4, h5, _, h7, _, h9⟩ :=
    create_then_getById Store.empty WF_empty "Alice" "13900001234" .undefined .undefined
      (by decide) (by decide) (by simp [Store.empty])
  exact ⟨c, h1, h3, h4, h5, h7 (Or.inl rfl), h9 (Or.inl rfl)⟩

/-! ## Update of the address alone -/

theorem update_keeping_fields (s : Store) (hwf : s.WF) (c : Contact) (hc : c ∈ s.rows)
    (hn : c.name.truthy = true) (hp : c.phone.truthy = true)
    (text : String) (ht : c.phone.toJsString = some text) (hre : phoneRegexTest text = true)
    (hu : ∀ d ∈ s.rows, d.phone = c.phone → d.id = c.id) (a : JsVal) :
    (update s c.id ⟨c.name, c.phone, c.email, a⟩).1
      = ⟨200, true, some msgUpdated,
          .contact ⟨c.id, c.name, c.phone, c.email.orNull, a.orNull⟩, none⟩ ∧
    ∃ cs : List Contact,
      list (update s c.id ⟨c.name, c.phone, c.email, a⟩).2
        = (⟨200, true, none, .contacts cs, none⟩,
            (update s c.id ⟨c.name, c.phone, c.email, a⟩).2) ∧
      (⟨c.id, c.name, c.phone, c.email.orNull, a.orNull⟩ : Contact) ∈ cs ∧
      ∀ d ∈ cs, d.id = c.id → d = ⟨c.id, c.name, c.phone, c.email.orNull, a.orNull⟩ := by
  have hsel : s.selectById c.id ≠ [] := by
    rw [selectById_of_mem s hwf c hc]; simp
  have hupd := update_of_valid s c.id ⟨c.name, c.phone, c.email, a⟩ hsel hn hp text ht hre hu
  simp only at hupd
  have hwf2 := update_WF s hwf c.name c.phone c.email.orNull a.orNull c.id
  have hmem : (⟨c.id, c.name, c.phone, c.email.orNull, a.orNull⟩ : Contact)
      ∈ (s.update c.name c.phone c.email.orNull a.orNull c.id).rows := by
    simp only [Store.update, List.mem_map]
    exact ⟨c, hc, by simp⟩
  have hsel2 := selectById_of_mem _ hwf2 _ hmem
  simp only at hsel2
  constructor
  · rw [hupd, hsel2]; rfl
  · rw [hupd]
    have hperm : (s.update c.name c.phone c.email.orNull a.orNull c.id).selectAllDesc.Perm
        (s.update c.name c.phone c.email.orNull a.orNull c.id).rows :=
      List.perm_insertionSort _ _
    refine ⟨_, rfl, hperm.mem_iff.mpr hmem, ?_⟩
    intro d hd hdc
    have hd2 := selectById_of_mem _ hwf2 d (hperm.mem_iff.mp hd)
    rw [hdc, hsel2] at hd2
    exact (List.cons.inj hd2).1.symm

/-- C6: for every store the service reaches from the empty store by create,
update and delete requests, and every stored contact `c` whose name is a
non-empty string and whose phone is a string that matches the pattern and is
held by no contact of another id, the update that sends `c`'s own name, phone
and email and a new address is answered with status 200 although `c`'s phone
is in the store, and the list right afterwards holds exactly one contact of
id `c.id`: it has the name, phone and email of `c` and the new address
(`NULL` when it was absent, `null` or empty). -/
theorem update_address_only (reqs : List Request) (c : Contact)
    (hc : c ∈ (run Store.empty reqs).rows)
    (n p : String) (hcn : c.name = .str n) (hn : n ≠ "")
    (hcp : c.phone = .str p) (hp : isMobileNumber p = true)
    (hu : ∀ d ∈ (run Store.empty reqs).rows, d.phone = c.phone → d.id = c.id) (a : JsVal) :
    ∃ c' : Contact,
      (update (run Store.empty reqs) c.id ⟨c.name, c.phone, c.email, a⟩).1
        = ⟨200, true, some msgUpdated, .contact c', none⟩ ∧
      (∃ cs : List Contact,
        list (update (run Store.empty reqs) c.id ⟨c.name, c.phone, c.email, a⟩).2
          = (⟨200, true, none, .contacts cs, none⟩,
              (update (run Store.empty reqs) c.id ⟨c.name, c.phone, c.email, a⟩).2) ∧
        c' ∈ cs ∧ ∀ d ∈ cs, d.id = c.id → d = c') ∧
      c'.id = c.id ∧ c'.name = c.name ∧ c'.phone = c.phone ∧ c'.email = c.email ∧
      (∀ x, a = .str x → x ≠ "" → c'.address = .str x) ∧
      (a = .undefined ∨ a = .null ∨ a = .str "" → c'.address = .null) := by
  have hinv := run_Inv reqs Store.empty Inv_empty
  have hpe : p ≠ "" := by
    rintro rfl
    simp [isMobileNumber] at hp
  have hemail : c.email.orNull = c.email := (hinv.2.2 c hc).2.2.2.1
  obtain ⟨h1, h2⟩ := update_keeping_fields (run Store.empty reqs) hinv.1 c hc
    (by rw [hcn]; simpa [JsVal.truthy] using hn)
    (by rw [hcp]; simpa [JsVal.truthy] using hpe) p
    (by rw [hcp]; exact toJsString_str p)
    (by rw [phoneRegexTest_eq_isMobileNumber]; exact hp) hu a
  refine ⟨⟨c.id, c.name, c.phone, c.email.orNull, a.orNull⟩, h1, h2, rfl, rfl, rfl, hemail,
    ?_, ?_⟩
  · rintro x rfl hx
    simp [JsVal.orNull, JsVal.truthy, hx]
  · rintro (rfl | rfl | rfl) <;> simp [JsVal.orNull, JsVal.truthy]

/-- Witness for C6: a contact is created with an email and no address, and its
address is then replaced. -/
theorem update_address_only_witness :
    ∃ c' : Contact,
      (update
          (run Store.empty
            [.create ⟨.str "Ann", .str "13800001111", .str "ann@example.org", .undefined⟩])
          1 ⟨.str "Ann", .str "13800001111", .str "ann@example.org", .str "Road 1"⟩).1
        = ⟨200, true, some msgUpdated, .contact c', none⟩ ∧
      c'.email = .str "ann@example.org" ∧ c'.address = .str "Road 1" := by
  obtain ⟨c', h1, _, _, _, _, h6, h7, _⟩ :=
    update_address_only
      [.create ⟨.str "Ann", .str "13800001111", .str "ann@example.org", .undefined⟩]
      ⟨1, .str "Ann", .str "13800001111", .str "ann@example.org", .null⟩ (by decide)
      "Ann" "13800001111" rfl (by decide) rfl (by decide) (by decide) (.str "Road 1")
  exact ⟨c', h1, h6, h7 "Road 1" rfl (by decide)⟩

/-! ## Delete -/

/-- C7: for every well-formed store and every stored contact, a delete of its id
is answered with status 200 and no `data` member, the store afterwards is the
store before with exactly that contact erased (the other rows and the
auto-increment counter are as before), and a get-by-id on that id right
afterwards is answered with 404. -/
theorem delete_existing (s : Store) (hwf : s.WF) (c : Contact) (hc : c ∈ s.rows) :
    delete s c.id
      = (⟨200, true, some msgDeleted, .absent, none⟩, ⟨s.rows.erase c, s.nextId⟩) ∧
    (∀ d, d ∈ (delete s c.id).2.rows ↔ d ∈ s.rows ∧ d ≠ c) ∧
    getById (delete s c.id).2 c.id
      = (⟨404, false, some msgNotFound, .absent, none⟩, (delete s c.id).2) := by
  have hsel := selectById_of_mem s hwf c hc
  have hrows : s.rows.Nodup := List.Nodup.of_map _ hwf.1
  have hdel : delete s c.id
      = (⟨200, true, some msgDeleted, .absent, none⟩, ⟨s.rows.erase c, s.nextId⟩) := by
    unfold delete
    simp [hsel, Store.delete, filter_id_ne_eq_erase s.rows hwf.1 c hc]
  refine ⟨hdel, ?_, ?_⟩
  · intro d
    rw [hdel]
    exact hrows.mem_erase_iff.trans and_comm
  · rw [hdel]
    apply getById_of_not_mem
    intro d hd hdc
    have hd2 : d ∈ s.rows ∧ d ≠ c := and_comm.mp (hrows.mem_erase_iff.mp hd)
    have := selectById_of_mem s hwf d hd2.1
    rw [hdc, hsel] at this
    exact hd2.2 (List.cons.inj this).1.symm

/-- Witness for C7: the first of two stored contacts is deleted. -/
theorem delete_existing_witness :
    delete ⟨[⟨1, .str "Ann", .str "13800001111", .null, .null⟩,
        ⟨2, .str "Ben", .str "13900001234", .null, .null⟩], 3⟩ 1
      = (⟨200, true, some msgDeleted, .absent, none⟩,
          ⟨[⟨2, .str "Ben", .str "13900001234", .null, .null⟩], 3⟩) :=
  (delete_existing
    ⟨[⟨1, .str "Ann", .str "13800001111", .null, .null⟩,
      ⟨2, .str "Ben", .str "13900001234", .null, .null⟩], 3⟩
    (by decide) ⟨1, .str "Ann", .str "13800001111", .null, .null⟩ (by decide)).1

/-! ## List -/

/-- C8: for every well-formed store, the list request is answered with status
200 and a `data` array that is a permutation of the stored rows (every stored
contact exactly once, nothing else) in strictly descending order of id; the
store is unchanged. -/
theorem list_sorted_desc (s : Store) (hwf : s.WF) :
    ∃ cs : List Contact,
      list s = (⟨200, true, none, .contacts cs, none⟩, s) ∧
      cs.Perm s.rows ∧ cs.Nodup ∧ cs.Pairwise (fun x y => y.id < x.id) := by
  haveI : IsTotal Contact (fun x y => y.id ≤ x.id) := ⟨fun x y => Nat.le_total y.id x.id⟩
  haveI : IsTrans Contact (fun x y => y.id ≤ x.id) := ⟨fun _ _ _ h1 h2 => Nat.le_trans h2 h1⟩
  have hperm : s.selectAllDesc.Perm s.rows := List.perm_insertionSort _ _
  have hsorted : s.selectAllDesc.Pairwise (fun x y => y.id ≤ x.id) :=
    List.sorted_insertionSort _ _
  have hids : (s.selectAllDesc.map Contact.id).Nodup := (hperm.map _).nodup_iff.mpr hwf.1
  have hne : s.selectAllDesc.Pairwise (fun x y => x.id ≠ y.id) :=
    List.pairwise_map.mp hids
  refine ⟨s.selectAllDesc, rfl, hperm, List.Nodup.of_map _ hids, ?_⟩
  exact (hsorted.and hne).imp (fun h => Nat.lt_of_le_of_ne h.1 (Ne.symm h.2))

/-- Witness for C8: two contacts stored in ascending order of id are listed
newest first. -/
theorem list_sorted_desc_witness :
    ∃ cs : List Contact,
      list ⟨[⟨1, .str "Ann", .str "13800001111", .null, .null⟩,
          ⟨2, .str "Ben", .str "13900001234", .null, .null⟩], 3⟩
        = (⟨200, true, none, .contacts cs, none⟩,
          ⟨[⟨1, .str "Ann", .str "13800001111", .null, .null⟩,
            ⟨2, .str "Ben", .str "13900001234", .null, .null⟩], 3⟩) ∧
      cs.Perm [⟨1, .str "Ann", .str "13800001111", .null, .null⟩,
        ⟨2, .str "Ben", .str "13900001234", .null, .null⟩] ∧
      cs.Nodup ∧ cs.Pairwise (fun x y => y.id < x.id) :=
  list_sorted_desc
    ⟨[⟨1, .str "Ann", .str "13800001111", .null, .null⟩,
      ⟨2, .str "Ben", .str "13900001234", .null, .null⟩], 3⟩
    (by decide)

/-! ## The phone invariant -/

/-- C9 is broken by the code: a create whose `phone` is the one-element array
`["13800001111"]` passes the required-field check, since an array is truthy,
and the pattern check, since `test` coerces the array to "13800001111"; it is
answered with 201, and the value bound to the phone column is the array
itself, which is not a string of 11 digits. After this one request from the
empty store the only stored contact has a phone that does not match the
pattern. -/
theorem create_array_phone_stored :
    (JsVal.arr (.cons (.str "13800001111") .nil)).truthy = true ∧
    (JsVal.arr (.cons (.str "13800001111") .nil)).toJsString = some "13800001111" ∧
    phoneRegexTest "13800001111" = true ∧
    create Store.empty
        ⟨.str "Ann", .arr (.cons (.str "13800001111") .nil), .undefined, .undefined⟩
      = (⟨201, true, some msgCreated,
            .contact ⟨1, .str "Ann", .arr (.cons (.str "13800001111") .nil), .null, .null⟩,
            none⟩,
          ⟨[⟨1, .str "Ann", .arr (.cons (.str "13800001111") .nil), .null, .null⟩], 2⟩) ∧
    run Store.empty
        [.create ⟨.str "Ann", .arr (.cons (.str "13800001111") .nil), .undefined, .undefined⟩]
      = ⟨[⟨1, .str "Ann", .arr (.cons (.str "13800001111") .nil), .null, .null⟩], 2⟩ ∧
    ¬ ∃ p : String, JsVal.arr (.cons (.str "13800001111") .nil) = .str p ∧
        isMobileNumber p = true := by
  refine ⟨by decide, by decide, by decide, by decide, by decide, ?_⟩
  rintro ⟨p, hp, _⟩
  cases hp

/-! ## The form of the client -/

theorem loadContacts_form {W : Type} (fetch : Fetch W) (st : W × Page) :
    (loadContacts fetch st).2.contactId = st.2.contactId ∧
    (loadContacts fetch st).2.fields = st.2.fields ∧
    (loadContacts fetch st).2.defaults = st.2.defaults := by
  unfold loadContacts
  simp only []
  rcases fetch ⟨.GET, API_BASE_URL, none⟩ st.1 with ⟨response, w⟩
  rcases response with _ | result
  · simp [showLoading, showError, hideError]
  · simp only []
    split_ifs
    · rcases result.data with _ | _ | cs
      · simp [showLoading, showError, hideError]
      · simp [showLoading, showError, hideError]
      · simp only [displayContacts]
        split_ifs <;> simp [showLoading, hideError]
    · simp [showLoading, showError, hideError]

/-- C10, as the code behaves: in Edit mode (the hidden id input is not empty) a
submit sends a `PUT` for the edited id; a cancel, and a submit whose answer
has `success: true`, each leave the id input empty and the inputs at their
default values, so that the next submit sends a `POST` to the collection. A
successful delete is not among these transitions: `deleteContact` reloads the
list and does not reset the form. -/
theorem edit_mode_reset {W : Type} (fetch : Fetch W) (w : W) (pg : Page)
    (hedit : pg.contactId ≠ "") :
    ((submitRequest pg).method = .PUT ∧
      (submitRequest pg).url = API_BASE_URL ++ "/" ++ pg.contactId) ∧
    ((cancel (w, pg)).2.contactId = "" ∧ (cancel (w, pg)).2.fields = pg.defaults ∧
      (submitRequest (cancel (w, pg)).2).method = .POST ∧
      (submitRequest (cancel (w, pg)).2).url = API_BASE_URL) ∧
    (∀ result : Response, (fetch (submitRequest pg) w).1 = some result →
      result.success = true →
      (handleFormSubmit fetch (w, pg)).2.contactId = "" ∧
      (handleFormSubmit fetch (w, pg)).2.fields = pg.defaults ∧
      (submitRequest (handleFormSubmit fetch (w, pg)).2).method = .POST ∧
      (submitRequest (handleFormSubmit fetch (w, pg)).2).url = API_BASE_URL) := by
  refine ⟨⟨by simp [submitRequest, hedit], by simp [submitRequest, hedit]⟩,
    ⟨rfl, rfl, by simp [submitRequest, cancel, resetForm],
      by simp [submitRequest, cancel, resetForm]⟩, ?_⟩
  intro result hres hok
  have hid : (handleFormSubmit fetch (w, pg)).2.contactId = "" ∧
      (handleFormSubmit fetch (w, pg)).2.fields = pg.defaults := by
    unfold handleFormSubmit
    simp only []
    rcases hf : fetch (submitRequest pg) w with ⟨response, w2⟩
    rw [hf] at hres
    simp only at hres
    subst hres
    simp only [hok, if_true]
    have hl := loadContacts_form fetch (w2, resetForm (hideError (showLoading true pg)))
    simp only [showLoading, alert]
    exact ⟨hl.1, hl.2.1⟩
  refine ⟨hid.1, hid.2, ?_, ?_⟩ <;> simp [submitRequest, hid.1]

/-- Witness for C10: the form edits contact 1 and its submit is
answered by the update handler with success. -/
theorem edit_mode_reset_witness :
    (handleFormSubmit (serveItem 1)
      (⟨[⟨1, .str "Ann", .str "13800001111", .null, .null⟩], 2⟩,
        ⟨"1", ⟨"Ann", "13800001111", "", " Road 1 "⟩, ⟨"", "", "", ""⟩, "编辑联系人", "更新",
          "inline-block", .emptyState, "none", "", "none", []⟩)).2.contactId = "" :=
  ((edit_mode_reset (serveItem 1) ⟨[⟨1, .str "Ann", .str "13800001111", .null, .null⟩], 2⟩
      ⟨"1", ⟨"Ann", "13800001111", "", " Road 1 "⟩, ⟨"", "", "", ""⟩, "编辑联系人", "更新",
        "inline-block", .emptyState, "none", "", "none", []⟩ (by decide)).2.2
    ⟨200, true, some msgUpdated,
      .contact ⟨1, .str "Ann", .str "13800001111", .null, .str "Road 1"⟩, none⟩
    (by decide) rfl).1

/-- C10 fails as stated for delete: the form edits contact 1, contact 1 is
deleted with success, and afterwards the id input still holds "1", so the next
submit sends a `PUT` for the deleted id, which the router answers with 404. -/
theorem delete_keeps_edit_mode :
    (deleteContact (serveItem 1) true 1
      (⟨[⟨1, .str "Ann", .str "13800001111", .null, .null⟩], 2⟩,
        ⟨"1", ⟨"Ann", "13800001111", "", ""⟩, ⟨"", "", "", ""⟩, "编辑联系人", "更新",
          "inline-block", .emptyState, "none", "", "none", []⟩))
      = (⟨[], 2⟩,
        ⟨"1", ⟨"Ann", "13800001111", "", ""⟩, ⟨"", "", "", ""⟩, "编辑联系人", "更新",
          "inline-block", .emptyState, "none", "", "none", ["联系人删除成功！"]⟩) ∧
    (submitRequest ⟨"1", ⟨"Ann", "13800001111", "", ""⟩, ⟨"", "", "", ""⟩, "编辑联系人", "更新",
          "inline-block", .emptyState, "none", "", "none", ["联系人删除成功！"]⟩).method = .PUT ∧
    (update ⟨[], 2⟩ 1 ⟨.str "Ann", .str "13800001111", .str "", .str ""⟩).1.status = 404 := by
  decide

end Contacts
